import Mathlib

/-!
# SFF-8472 A0h base-ID decoder: shallow embedding of `sfp_8472.c`

Conventions of the embedding.

* `uint8_t` is `Fin 256`; a `uint16_t` value is a `Nat`, reduced `% 65536` where the
  source stores the result of an arithmetic expression into a 16-bit field.
* A C pointer is an `Option`: `none` is the null pointer, `some v` a pointer to an
  object currently holding `v`.  The raw EEPROM buffer is a `List uint8_t`, its length
  being the size of the object the pointer designates.
* A `void` function that writes through a pointer returns the new content of the
  pointee.  A getter with an out-parameter returns the pair of its return value and the
  new content of the pointee of the out-parameter.
* An access outside an object (array read past the end, write through null) is undefined
  in C; the embedding makes it explicit as `Except.error` carrying a `Fault`.
-/

namespace SFP

/-- An octet, the C type `uint8_t`. -/
abbrev uint8_t := Fin 256

/-- An access the C abstract machine leaves undefined. -/
inductive Fault where
  | out_of_bounds_read
  | null_write
deriving DecidableEq, Repr

/-- The constant `SFP_A0_BASE_SIZE` of `sfp_8472.h`. -/
def SFP_A0_BASE_SIZE : Nat := 64

/-- The enum `sfp_identifier_t`.  A C enum object holds an integer; the embedding keeps
that integer, and the enumerators below are its named values. -/
abbrev sfp_identifier_t := Nat

/-- Enumerator `SFP_ID_UNKNOWN = 0x00`. -/
def SFP_ID_UNKNOWN : sfp_identifier_t := 0x00
/-- Enumerator `SFP_ID_GBIC = 0x02`. -/
def SFP_ID_GBIC : sfp_identifier_t := 0x02
/-- Enumerator `SFP_ID_SFP = 0x03`. -/
def SFP_ID_SFP : sfp_identifier_t := 0x03
/-- Enumerator `SFP_ID_QSFP = 0x0C`. -/
def SFP_ID_QSFP : sfp_identifier_t := 0x0C
/-- Enumerator `SFP_ID_QSFP_PLUS = 0x11`. -/
def SFP_ID_QSFP_PLUS : sfp_identifier_t := 0x11
/-- Enumerator `SFP_ID_QSFP28 = 0x18`. -/
def SFP_ID_QSFP28 : sfp_identifier_t := 0x18

/-- The enum `sfp_om1_length_status_t`; the first enumerator has the value 0. -/
inductive sfp_om1_length_status_t where
  | SFP_OM1_LEN_NOT_SUPPORTED
  | SFP_OM1_LEN_VALID
  | SFP_OM1_LEN_EXTENDED
deriving DecidableEq, Repr

/-- The enum `sfp_om4_length_status_t`; the first enumerator has the value 0. -/
inductive sfp_om4_length_status_t where
  | SFP_OM4_LEN_NOT_SUPPORTED
  | SFP_OM4_LEN_VALID
  | SFP_OM4_LEN_EXTENDED
deriving DecidableEq, Repr

open sfp_om1_length_status_t sfp_om4_length_status_t

/-- The anonymous struct `compliance_codes` of `sfp_a0h_base_t` (bytes 3 to 10). -/
structure compliance_codes_t where
  byte3 : uint8_t
  byte4 : uint8_t
  byte5 : uint8_t
  byte6 : uint8_t
  byte7 : uint8_t
  byte8 : uint8_t
  byte9 : uint8_t
  byte10 : uint8_t
deriving DecidableEq, Repr

/-- The struct `sfp_a0h_base_t` of `sfp_8472.h`, field by field.  The character arrays
are lists of octets and the two-byte union `media_info` is its 16-bit value. -/
structure sfp_a0h_base_t where
  identifier : sfp_identifier_t
  ext_identifier : uint8_t
  connector : uint8_t
  compliance_codes : compliance_codes_t
  encoding : uint8_t
  nominal_rate : uint8_t
  rate_identifier : uint8_t
  om1_length_m : Nat
  om1_status : sfp_om1_length_status_t
  om4_or_cooper_length_m : Nat
  om4_or_cooper_status : sfp_om4_length_status_t
  vendor_name : List uint8_t
  ext_compliance : uint8_t
  vendor_oui : List uint8_t
  vendor_pn : List uint8_t
  vendor_rev : List uint8_t
  media_info : Nat
  fc_speed2 : uint8_t
  cc_base : uint8_t
deriving DecidableEq, Repr

/-- The record after `sfp_a0h_base_t a0 = {0};` as in `main.c`: every member is zero, the
two status members being the enumerator of value 0. -/
def a0_zero : sfp_a0h_base_t :=
  { identifier := 0
    ext_identifier := 0
    connector := 0
    compliance_codes :=
      { byte3 := 0, byte4 := 0, byte5 := 0, byte6 := 0,
        byte7 := 0, byte8 := 0, byte9 := 0, byte10 := 0 }
    encoding := 0
    nominal_rate := 0
    rate_identifier := 0
    om1_length_m := 0
    om1_status := SFP_OM1_LEN_NOT_SUPPORTED
    om4_or_cooper_length_m := 0
    om4_or_cooper_status := SFP_OM4_LEN_NOT_SUPPORTED
    vendor_name := List.replicate 16 0
    ext_compliance := 0
    vendor_oui := List.replicate 3 0
    vendor_pn := List.replicate 16 0
    vendor_rev := List.replicate 4 0
    media_info := 0
    fc_speed2 := 0
    cc_base := 0 }

/-- The array read `data[i]` on a buffer of `data.length` octets. -/
def read_u8 (data : List uint8_t) (i : Nat) : Except Fault uint8_t :=
  match data[i]? with
  | some b => .ok b
  | none => .error Fault.out_of_bounds_read

/-- Embedding of `sfp_parse_a0_base_identifier` (sfp_8472.c, lines 55-65). -/
def sfp_parse_a0_base_identifier (a0_base_data : Option (List uint8_t))
    (a0 : Option sfp_a0h_base_t) : Except Fault (Option sfp_a0h_base_t) :=
  match a0_base_data, a0 with
  | none, _ => .ok a0
  | some _, none => .ok a0
  | some data, some r =>
    match read_u8 data 0 with
    | .error e => .error e
    | .ok b => .ok (some { r with identifier := b.val })

/-- Embedding of `sfp_a0_get_identifier` (sfp_8472.c, lines 70-76). -/
def sfp_a0_get_identifier (a0 : Option sfp_a0h_base_t) : sfp_identifier_t :=
  match a0 with
  | none => SFP_ID_UNKNOWN
  | some r => r.identifier

/-- Embedding of `sfp_parse_a0_base_om1` (sfp_8472.c, lines 79-119). -/
def sfp_parse_a0_base_om1 (a0_base_data : Option (List uint8_t))
    (a0 : Option sfp_a0h_base_t) : Except Fault (Option sfp_a0h_base_t) :=
  match a0_base_data, a0 with
  | none, _ => .ok a0
  | some _, none => .ok a0
  | some data, some r =>
    match read_u8 data 17 with
    | .error e => .error e
    | .ok raw =>
      if raw.val = 0x00 then
        .ok (some { r with om1_status := SFP_OM1_LEN_NOT_SUPPORTED, om1_length_m := 0 })
      else if raw.val = 0xFF then
        .ok (some { r with om1_status := SFP_OM1_LEN_EXTENDED, om1_length_m := 2540 })
      else
        .ok (some { r with om1_status := SFP_OM1_LEN_VALID
                           om1_length_m := (raw.val * 10) % 65536 })

/-- Embedding of `sfp_a0_get_om1_length_m` (sfp_8472.c, lines 125-137).  The result is the
returned length with the content of `*status` after the call (`none` for a null
`status`). -/
def sfp_a0_get_om1_length_m (a0 : Option sfp_a0h_base_t)
    (status : Option sfp_om1_length_status_t) :
    Except Fault (Nat × Option sfp_om1_length_status_t) :=
  match a0 with
  | none =>
    match status with
    | some _ => .ok (0, some SFP_OM1_LEN_NOT_SUPPORTED)
    | none => .ok (0, none)
  | some r =>
    match status with
    | some _ => .ok (r.om1_length_m, some r.om1_status)
    | none => .ok (r.om1_length_m, none)

/-- Embedding of the static helper `sfp_is_copper` (sfp_8472.c, lines 141-145). -/
def sfp_is_copper (byte8 : uint8_t) : Bool :=
  (byte8.val &&& (1 <<< 2) != 0) || (byte8.val &&& (1 <<< 3) != 0)

/-- Embedding of `sfp_parse_a0_base_om4_or_copper` (sfp_8472.c, lines 147-207). -/
def sfp_parse_a0_base_om4_or_copper (a0_base_data : Option (List uint8_t))
    (a0 : Option sfp_a0h_base_t) : Except Fault (Option sfp_a0h_base_t) :=
  match a0_base_data, a0 with
  | none, _ => .ok a0
  | some _, none => .ok a0
  | some data, some r =>
    match read_u8 data 18 with
    | .error e => .error e
    | .ok raw_length =>
      match read_u8 data 8 with
      | .error e => .error e
      | .ok byte8 =>
        let is_copper := sfp_is_copper byte8
        if raw_length.val = 0x00 then
          .ok (some { r with om4_or_cooper_status := SFP_OM4_LEN_NOT_SUPPORTED
                             om4_or_cooper_length_m := 0 })
        else if raw_length.val = 0xFF then
          if is_copper then
            .ok (some { r with om4_or_cooper_status := SFP_OM4_LEN_EXTENDED
                               om4_or_cooper_length_m := 254 })
          else
            .ok (some { r with om4_or_cooper_status := SFP_OM4_LEN_EXTENDED
                               om4_or_cooper_length_m := 2540 })
        else
          if is_copper then
            .ok (some { r with om4_or_cooper_status := SFP_OM4_LEN_VALID
                               om4_or_cooper_length_m := raw_length.val })
          else
            .ok (some { r with om4_or_cooper_status := SFP_OM4_LEN_VALID
                               om4_or_cooper_length_m := (raw_length.val * 10) % 65536 })

/-- Embedding of `sfp_a0_get_om4_copper_or_length_m` (sfp_8472.c, lines 213-226).  The
result is the returned length with the content of `*status` after the call (`none` for a
null `status`).  In the branch for a null record the source tests `!status` before the
store `*status = SFP_OM4_LEN_NOT_SUPPORTED`. -/
def sfp_a0_get_om4_copper_or_length_m (a0 : Option sfp_a0h_base_t)
    (status : Option sfp_om4_length_status_t) :
    Except Fault (Nat × Option sfp_om4_length_status_t) :=
  match a0 with
  | none =>
    match status with
    | none => .error Fault.null_write
    | some s => .ok (0, some s)
  | some r =>
    match status with
    | some _ => .ok (r.om4_or_cooper_length_m, some r.om4_or_cooper_status)
    | none => .ok (r.om4_or_cooper_length_m, none)

/-- What the harness of `main.c` reads back through the three getters. -/
structure decoded_t where
  id : sfp_identifier_t
  om1_length_m : Nat
  om1_status : Option sfp_om1_length_status_t
  om4_length_m : Nat
  om4_status : Option sfp_om4_length_status_t
deriving DecidableEq, Repr

/-- The decoding part of `main` (main.c, lines 50-101), after a successful block read:
a zero-initialised record, then each parse call followed by its getter, in the order of
the source.  The locals `om1_status` and `om4_status` are uninitialised in the source;
their initial contents are the parameters `s1` and `s4`. -/
def main_decode (a0_base_data : List uint8_t) (s1 : sfp_om1_length_status_t)
    (s4 : sfp_om4_length_status_t) : Except Fault decoded_t :=
  match sfp_parse_a0_base_identifier (some a0_base_data) (some a0_zero) with
  | .error e => .error e
  | .ok a0 =>
    let id := sfp_a0_get_identifier a0
    match sfp_parse_a0_base_om1 (some a0_base_data) a0 with
    | .error e => .error e
    | .ok a0 =>
      match sfp_a0_get_om1_length_m a0 (some s1) with
      | .error e => .error e
      | .ok (om1_length_m, om1_status) =>
        match sfp_parse_a0_base_om4_or_copper (some a0_base_data) a0 with
        | .error e => .error e
        | .ok a0 =>
          match sfp_a0_get_om4_copper_or_length_m a0 (some s4) with
          | .error e => .error e
          | .ok (om4_length_m, om4_status) =>
            .ok { id := id
                  om1_length_m := om1_length_m
                  om1_status := om1_status
                  om4_length_m := om4_length_m
                  om4_status := om4_status }

/-- The buffer of the end-to-end example: 64 octets, byte 0 = 0x03, byte 8 = 0x00,
byte 17 = 0x19, byte 18 = 0x0A, every other octet zero. -/
def example_buffer : List uint8_t :=
  ((((List.replicate SFP_A0_BASE_SIZE 0).set 0 0x03).set 8 0x00).set 17 0x19).set 18 0x0A

/-- A transfer issued on the two-wire bus: the arguments of a call of the SDK function
`i2c_write_blocking` or `i2c_read_blocking` (address, octets sent or number of octets
requested, `nostop` flag). -/
inductive i2c_op where
  | write_blocking (addr : uint8_t) (src : List uint8_t) (len : Nat) (nostop : Bool)
  | read_blocking (addr : uint8_t) (len : Nat) (nostop : Bool)
deriving DecidableEq, Repr

/-- The bus behind `i2c_inst_t *i2c`.  The two SDK functions are not part of the
repository; they are parameters of the embedding, each returning the `int` the SDK
returns (the number of octets transferred, or a negative error code).  The read also
returns the content of the destination buffer after the transfer. -/
structure i2c_inst_t where
  i2c_write_blocking : uint8_t → List uint8_t → Nat → Bool → Int
  i2c_read_blocking : uint8_t → List uint8_t → Nat → Bool → Int × List uint8_t

/-- Outcome of `sfp_read_block`: the returned `bool`, the bus transfers issued in order,
and the content of the object behind `buffer` after the call. -/
structure read_block_result where
  ret : Bool
  ops : List i2c_op
  buffer : Option (List uint8_t)
deriving DecidableEq, Repr

/-- Embedding of `sfp_read_block` (sfp_8472.c, lines 22-49). -/
def sfp_read_block (i2c : i2c_inst_t) (dev_addr start_offset : uint8_t)
    (buffer : Option (List uint8_t)) (length : uint8_t) : read_block_result :=
  match buffer with
  | none => { ret := false, ops := [], buffer := none }
  | some buf =>
    if length.val = 0 then
      { ret := false, ops := [], buffer := some buf }
    else
      let ret := i2c.i2c_write_blocking dev_addr [start_offset] 1 true
      if ret ≠ 1 then
        { ret := false
          ops := [i2c_op.write_blocking dev_addr [start_offset] 1 true]
          buffer := some buf }
      else
        let res := i2c.i2c_read_blocking dev_addr buf length.val false
        { ret := decide (res.1 = (length.val : Int))
          ops := [i2c_op.write_blocking dev_addr [start_offset] 1 true,
                  i2c_op.read_blocking dev_addr length.val false]
          buffer := some res.2 }

/-- A bus on which every transfer completes: the write reports the octets sent, the read
reports the octets requested and leaves the buffer content as it was. -/
def bus_ack : i2c_inst_t :=
  { i2c_write_blocking := fun _ _ len _ => (len : Int)
    i2c_read_blocking := fun _ dst len _ => ((len : Int), dst) }

/-- A bus with no device answering: both SDK functions report the error code -1 of the
SDK (`PICO_ERROR_GENERIC`). -/
def bus_nack : i2c_inst_t :=
  { i2c_write_blocking := fun _ _ _ _ => -1
    i2c_read_blocking := fun _ dst _ _ => (-1, dst) }

/-- The three parse calls of `main` (main.c, lines 53, 71 and 97) in the order of the
source, without the getters in between. -/
def decode_sequence (a0_base_data : Option (List uint8_t)) (a0 : Option sfp_a0h_base_t) :
    Except Fault (Option sfp_a0h_base_t) :=
  match sfp_parse_a0_base_identifier a0_base_data a0 with
  | .error e => .error e
  | .ok a1 =>
    match sfp_parse_a0_base_om1 a0_base_data a1 with
    | .error e => .error e
    | .ok a2 => sfp_parse_a0_base_om4_or_copper a0_base_data a2

/-- The two objects a parse call works on: the raw buffer behind `a0_base_data` and the
record behind `a0`. -/
structure parse_mem_t where
  a0_base_data : Option (List uint8_t)
  a0 : Option sfp_a0h_base_t
deriving DecidableEq, Repr

/-- A call `f(a0_base_data, a0)` of one of the three parse functions on that memory.  Each
of them takes the buffer as `const uint8_t *` and its body holds no store through it: the
call leaves the buffer object as it is and puts the record the function computes in place
of the record object. -/
def call_parse
    (f : Option (List uint8_t) → Option sfp_a0h_base_t → Except Fault (Option sfp_a0h_base_t))
    (m : parse_mem_t) : Except Fault parse_mem_t :=
  match f m.a0_base_data m.a0 with
  | .error e => .error e
  | .ok a0 => .ok { a0_base_data := m.a0_base_data, a0 := a0 }

/-- The invariant of the two (length, status) pairs of a record, in the words of the
specification: a not-specified pair carries 0, an extended pair carries the lower bound
of its sentinel, a valid pair carries a value of the representable range of the field. -/
def record_inv (r : sfp_a0h_base_t) : Prop :=
  (r.om1_status = SFP_OM1_LEN_NOT_SUPPORTED → r.om1_length_m = 0) ∧
  (r.om1_status = SFP_OM1_LEN_EXTENDED → r.om1_length_m = 2540) ∧
  (r.om1_status = SFP_OM1_LEN_VALID →
    10 ≤ r.om1_length_m ∧ r.om1_length_m ≤ 2540 ∧ r.om1_length_m % 10 = 0) ∧
  (r.om4_or_cooper_status = SFP_OM4_LEN_NOT_SUPPORTED → r.om4_or_cooper_length_m = 0) ∧
  (r.om4_or_cooper_status = SFP_OM4_LEN_EXTENDED →
    r.om4_or_cooper_length_m = 254 ∨ r.om4_or_cooper_length_m = 2540) ∧
  (r.om4_or_cooper_status = SFP_OM4_LEN_VALID →
    1 ≤ r.om4_or_cooper_length_m ∧ r.om4_or_cooper_length_m ≤ 2540)

instance record_inv_decidable (r : sfp_a0h_base_t) : Decidable (record_inv r) := by
  unfold record_inv
  infer_instance

/-! ## Auxiliary facts -/

/-- The array read succeeds with the octet found at the index. -/
theorem read_u8_of_getElem? {data : List uint8_t} {i : Nat} {b : uint8_t}
    (h : data[i]? = some b) : read_u8 data i = .ok b := by
  simp [read_u8, h]

/-- The array read is outside the buffer exactly from the length on. -/
theorem read_u8_of_le (data : List uint8_t) (i : Nat) (h : data.length ≤ i) :
    read_u8 data i = .error Fault.out_of_bounds_read := by
  simp [read_u8, List.getElem?_eq_none h]

/-- The helper `sfp_is_copper` computes the disjunction of bits 2 and 3. -/
theorem sfp_is_copper_eq_testBit (x : uint8_t) :
    sfp_is_copper x = (x.val.testBit 2 || x.val.testBit 3) := by
  unfold sfp_is_copper
  have h2 := Nat.and_two_pow x.val 2
  have h3 := Nat.and_two_pow x.val 3
  simp only [Nat.shiftLeft_eq, Nat.one_mul] at *
  rw [h2, h3]
  cases x.val.testBit 2 <;> cases x.val.testBit 3 <;> simp

set_option maxRecDepth 100000 in
/-- On every octet the helper agrees with the mask test `(x & 0x0C) != 0`. -/
theorem sfp_is_copper_eq_mask :
    ∀ x : uint8_t, sfp_is_copper x = (x.val &&& 0x0C != 0) := by
  decide

/-! ## OM1 length (byte 17) -/

/-- C1: for a buffer whose byte 17 is `b` with `0x01 ≤ b ≤ 0xFE` (any buffer holding a
byte 17, so every buffer of at least 64 octets), and any record, `sfp_parse_a0_base_om1`
followed by `sfp_a0_get_om1_length_m` returns the length `b * 10` exactly (the reduction
modulo 2^16 of the 16-bit store has no effect) and reports `SFP_OM1_LEN_VALID` through the
status pointer. -/
theorem om1_valid_range_times_ten (data : List uint8_t) (b : uint8_t) (r : sfp_a0h_base_t)
    (s : sfp_om1_length_status_t)
    (h17 : data[17]? = some b)
    (hlo : 0x01 ≤ b.val) (hhi : b.val ≤ 0xFE) :
    (sfp_parse_a0_base_om1 (some data) (some r) >>= fun a0 =>
        sfp_a0_get_om1_length_m a0 (some s))
      = .ok (b.val * 10, some SFP_OM1_LEN_VALID) := by
  have h0 : b.val ≠ 0 := by omega
  have hF : b.val ≠ 255 := by omega
  have hm : b.val * 10 % 65536 = b.val * 10 := Nat.mod_eq_of_lt (by omega)
  simp only [sfp_parse_a0_base_om1, read_u8_of_getElem? h17]
  simp [h0, hF, hm, sfp_a0_get_om1_length_m, bind, Except.bind]

/-- Witness for C1 at the two ends of the range: byte 17 = 0x01 gives (10, Valid) and
byte 17 = 0xFE gives (2540, Valid). -/
theorem om1_valid_range_times_ten_witness :
    ((sfp_parse_a0_base_om1 (some (List.replicate 17 0 ++ [0x01] ++ List.replicate 46 0))
          (some a0_zero) >>= fun a0 =>
        sfp_a0_get_om1_length_m a0 (some SFP_OM1_LEN_NOT_SUPPORTED))
      = .ok (10, some SFP_OM1_LEN_VALID)) ∧
    ((sfp_parse_a0_base_om1 (some (List.replicate 17 0 ++ [0xFE] ++ List.replicate 46 0))
          (some a0_zero) >>= fun a0 =>
        sfp_a0_get_om1_length_m a0 (some SFP_OM1_LEN_EXTENDED))
      = .ok (2540, some SFP_OM1_LEN_VALID)) :=
  ⟨om1_valid_range_times_ten (List.replicate 17 0 ++ [0x01] ++ List.replicate 46 0) 0x01
      a0_zero SFP_OM1_LEN_NOT_SUPPORTED (by decide) (by decide) (by decide),
   om1_valid_range_times_ten (List.replicate 17 0 ++ [0xFE] ++ List.replicate 46 0) 0xFE
      a0_zero SFP_OM1_LEN_EXTENDED (by decide) (by decide) (by decide)⟩

/-- C2: for a buffer holding a byte 17 (so every buffer of at least 64 octets) and any
record, `sfp_parse_a0_base_om1` followed by `sfp_a0_get_om1_length_m` returns
`(0, SFP_OM1_LEN_NOT_SUPPORTED)` when byte 17 is 0x00 and `(2540, SFP_OM1_LEN_EXTENDED)`
when byte 17 is 0xFF. -/
theorem om1_sentinels (data : List uint8_t) (b : uint8_t) (r : sfp_a0h_base_t)
    (s : sfp_om1_length_status_t)
    (h17 : data[17]? = some b) :
    (b.val = 0x00 →
      (sfp_parse_a0_base_om1 (some data) (some r) >>= fun a0 =>
          sfp_a0_get_om1_length_m a0 (some s))
        = .ok (0, some SFP_OM1_LEN_NOT_SUPPORTED)) ∧
    (b.val = 0xFF →
      (sfp_parse_a0_base_om1 (some data) (some r) >>= fun a0 =>
          sfp_a0_get_om1_length_m a0 (some s))
        = .ok (2540, some SFP_OM1_LEN_EXTENDED)) := by
  constructor
  · intro hb
    simp [sfp_parse_a0_base_om1, read_u8_of_getElem? h17, hb, sfp_a0_get_om1_length_m, bind,
      Except.bind]
  · intro hb
    simp [sfp_parse_a0_base_om1, read_u8_of_getElem? h17, hb, sfp_a0_get_om1_length_m, bind,
      Except.bind]

/-- Witness for C2: a 64-octet buffer with byte 17 = 0x00, and one with byte 17 = 0xFF. -/
theorem om1_sentinels_witness :
    ((sfp_parse_a0_base_om1 (some (List.replicate 64 0)) (some a0_zero) >>= fun a0 =>
        sfp_a0_get_om1_length_m a0 (some SFP_OM1_LEN_VALID))
      = .ok (0, some SFP_OM1_LEN_NOT_SUPPORTED)) ∧
    ((sfp_parse_a0_base_om1 (some (List.replicate 64 0xFF)) (some a0_zero) >>= fun a0 =>
        sfp_a0_get_om1_length_m a0 (some SFP_OM1_LEN_VALID))
      = .ok (2540, some SFP_OM1_LEN_EXTENDED)) :=
  ⟨(om1_sentinels (List.replicate 64 0) 0x00 a0_zero SFP_OM1_LEN_VALID
      (by decide)).1 rfl,
   (om1_sentinels (List.replicate 64 0xFF) 0xFF a0_zero SFP_OM1_LEN_VALID
      (by decide)).2 rfl⟩

/-! ## Medium classifier (byte 8) and OM4 / copper length (byte 18) -/

/-- C5: for every octet `x`, `sfp_is_copper x` is true iff bit 2 or bit 3 of `x` is set,
that is iff `(x & 0x0C) != 0`; in particular it is false on 0x00 and on 0xF3. -/
theorem sfp_is_copper_iff_bit2_or_bit3 :
    (∀ x : uint8_t,
      (sfp_is_copper x = true ↔ (x.val.testBit 2 = true ∨ x.val.testBit 3 = true)) ∧
      (sfp_is_copper x = true ↔ x.val &&& 0x0C ≠ 0)) ∧
    sfp_is_copper 0x00 = false ∧ sfp_is_copper 0xF3 = false := by
  refine ⟨fun x => ⟨?_, ?_⟩, by decide, by decide⟩
  · rw [sfp_is_copper_eq_testBit]; simp
  · rw [sfp_is_copper_eq_mask]; simp

/-- C3: for a buffer whose byte 18 is `b` with `0x01 ≤ b ≤ 0xFE` and whose byte 8 is `m`
(so every such buffer of at least 64 octets), `sfp_parse_a0_base_om4_or_copper` followed
by `sfp_a0_get_om4_copper_or_length_m` reports `SFP_OM4_LEN_VALID` and returns `b` when
bit 2 or bit 3 of `m` is set (copper) and `b * 10` when neither is set (fiber). -/
theorem om4_valid_range_scaled_by_medium (data : List uint8_t) (b m : uint8_t)
    (r : sfp_a0h_base_t) (s : sfp_om4_length_status_t)
    (h18 : data[18]? = some b) (h8 : data[8]? = some m)
    (hlo : 0x01 ≤ b.val) (hhi : b.val ≤ 0xFE) :
    ((m.val.testBit 2 = true ∨ m.val.testBit 3 = true) →
      (sfp_parse_a0_base_om4_or_copper (some data) (some r) >>= fun a0 =>
          sfp_a0_get_om4_copper_or_length_m a0 (some s))
        = .ok (b.val, some SFP_OM4_LEN_VALID)) ∧
    ((m.val.testBit 2 = false ∧ m.val.testBit 3 = false) →
      (sfp_parse_a0_base_om4_or_copper (some data) (some r) >>= fun a0 =>
          sfp_a0_get_om4_copper_or_length_m a0 (some s))
        = .ok (b.val * 10, some SFP_OM4_LEN_VALID)) := by
  have h0 : b.val ≠ 0 := by omega
  have hF : b.val ≠ 255 := by omega
  have hm : b.val * 10 % 65536 = b.val * 10 := Nat.mod_eq_of_lt (by omega)
  constructor
  · intro hc
    have hcop : sfp_is_copper m = true := by
      rw [sfp_is_copper_eq_testBit]; simpa using hc
    simp [sfp_parse_a0_base_om4_or_copper, read_u8_of_getElem? h18, read_u8_of_getElem? h8,
      h0, hF, hcop, sfp_a0_get_om4_copper_or_length_m, bind, Except.bind]
  · intro hc
    have hcop : sfp_is_copper m = false := by
      rw [sfp_is_copper_eq_testBit]; simp [hc.1, hc.2]
    simp [sfp_parse_a0_base_om4_or_copper, read_u8_of_getElem? h18, read_u8_of_getElem? h8,
      h0, hF, hm, hcop, sfp_a0_get_om4_copper_or_length_m, bind, Except.bind]

/-- Witness for C3: byte 18 = 0xFE with byte 8 = 0x04 (copper) gives (254, Valid); byte 18 =
0xFE with byte 8 = 0xF3 (fiber) gives (2540, Valid). -/
theorem om4_valid_range_scaled_by_medium_witness :
    ((sfp_parse_a0_base_om4_or_copper
          (some (List.replicate 8 0 ++ [0x04] ++ List.replicate 9 0 ++ [0xFE]
            ++ List.replicate 45 0)) (some a0_zero) >>= fun a0 =>
        sfp_a0_get_om4_copper_or_length_m a0 (some SFP_OM4_LEN_NOT_SUPPORTED))
      = .ok (254, some SFP_OM4_LEN_VALID)) ∧
    ((sfp_parse_a0_base_om4_or_copper
          (some (List.replicate 8 0 ++ [0xF3] ++ List.replicate 9 0 ++ [0xFE]
            ++ List.replicate 45 0)) (some a0_zero) >>= fun a0 =>
        sfp_a0_get_om4_copper_or_length_m a0 (some SFP_OM4_LEN_NOT_SUPPORTED))
      = .ok (2540, some SFP_OM4_LEN_VALID)) :=
  ⟨(om4_valid_range_scaled_by_medium
      (List.replicate 8 0 ++ [0x04] ++ List.replicate 9 0 ++ [0xFE] ++ List.replicate 45 0)
      0xFE 0x04 a0_zero SFP_OM4_LEN_NOT_SUPPORTED (by decide) (by decide) (by decide)
      (by decide)).1 (by decide),
   (om4_valid_range_scaled_by_medium
      (List.replicate 8 0 ++ [0xF3] ++ List.replicate 9 0 ++ [0xFE] ++ List.replicate 45 0)
      0xFE 0xF3 a0_zero SFP_OM4_LEN_NOT_SUPPORTED (by decide) (by decide) (by decide)
      (by decide)).2 (by decide)⟩

/-- C4: for a buffer whose byte 18 is `b` and whose byte 8 is `m` (so every buffer of at
least 64 octets), `sfp_parse_a0_base_om4_or_copper` stores `(254, SFP_OM4_LEN_EXTENDED)`
when `b` is 0xFF and the medium is copper, `(2540, SFP_OM4_LEN_EXTENDED)` when `b` is 0xFF
and the medium is fiber, and `(0, SFP_OM4_LEN_NOT_SUPPORTED)` when `b` is 0x00 whatever the
medium; the other members of the record keep their values. -/
theorem om4_sentinels_stored (data : List uint8_t) (b m : uint8_t) (r : sfp_a0h_base_t)
    (h18 : data[18]? = some b) (h8 : data[8]? = some m) :
    (b.val = 0xFF → (m.val.testBit 2 = true ∨ m.val.testBit 3 = true) →
      sfp_parse_a0_base_om4_or_copper (some data) (some r)
        = .ok (some { r with om4_or_cooper_length_m := 254
                             om4_or_cooper_status := SFP_OM4_LEN_EXTENDED })) ∧
    (b.val = 0xFF → (m.val.testBit 2 = false ∧ m.val.testBit 3 = false) →
      sfp_parse_a0_base_om4_or_copper (some data) (some r)
        = .ok (some { r with om4_or_cooper_length_m := 2540
                             om4_or_cooper_status := SFP_OM4_LEN_EXTENDED })) ∧
    (b.val = 0x00 →
      sfp_parse_a0_base_om4_or_copper (some data) (some r)
        = .ok (some { r with om4_or_cooper_length_m := 0
                             om4_or_cooper_status := SFP_OM4_LEN_NOT_SUPPORTED })) := by
  refine ⟨?_, ?_, ?_⟩
  · intro hb hc
    have hcop : sfp_is_copper m = true := by
      rw [sfp_is_copper_eq_testBit]; simpa using hc
    simp [sfp_parse_a0_base_om4_or_copper, read_u8_of_getElem? h18, read_u8_of_getElem? h8,
      hb, hcop]
  · intro hb hc
    have hcop : sfp_is_copper m = false := by
      rw [sfp_is_copper_eq_testBit]; simp [hc.1, hc.2]
    simp [sfp_parse_a0_base_om4_or_copper, read_u8_of_getElem? h18, read_u8_of_getElem? h8,
      hb, hcop]
  · intro hb
    simp [sfp_parse_a0_base_om4_or_copper, read_u8_of_getElem? h18, read_u8_of_getElem? h8,
      hb]

/-- Witness for C4 on three 64-octet buffers: (0xFF, copper byte 0x08), (0xFF, fiber byte
0x00) and (0x00, copper byte 0x0C). -/
theorem om4_sentinels_stored_witness :
    sfp_parse_a0_base_om4_or_copper
        (some (List.replicate 8 0 ++ [0x08] ++ List.replicate 9 0 ++ [0xFF]
          ++ List.replicate 45 0)) (some a0_zero)
      = .ok (some { a0_zero with om4_or_cooper_length_m := 254
                                 om4_or_cooper_status := SFP_OM4_LEN_EXTENDED }) ∧
    sfp_parse_a0_base_om4_or_copper
        (some (List.replicate 18 0 ++ [0xFF] ++ List.replicate 45 0)) (some a0_zero)
      = .ok (some { a0_zero with om4_or_cooper_length_m := 2540
                                 om4_or_cooper_status := SFP_OM4_LEN_EXTENDED }) ∧
    sfp_parse_a0_base_om4_or_copper
        (some (List.replicate 8 0 ++ [0x0C] ++ List.replicate 55 0))
        (some { a0_zero with om4_or_cooper_length_m := 77
                             om4_or_cooper_status := SFP_OM4_LEN_VALID })
      = .ok (some { a0_zero with om4_or_cooper_length_m := 0
                                 om4_or_cooper_status := SFP_OM4_LEN_NOT_SUPPORTED }) :=
  ⟨(om4_sentinels_stored
      (List.replicate 8 0 ++ [0x08] ++ List.replicate 9 0 ++ [0xFF] ++ List.replicate 45 0)
      0xFF 0x08 a0_zero (by decide) (by decide)).1 (by decide) (by decide),
   (om4_sentinels_stored (List.replicate 18 0 ++ [0xFF] ++ List.replicate 45 0)
      0xFF 0x00 a0_zero (by decide) (by decide)).2.1 (by decide) (by decide),
   (om4_sentinels_stored (List.replicate 8 0 ++ [0x0C] ++ List.replicate 55 0)
      0x00 0x0C { a0_zero with om4_or_cooper_length_m := 77
                               om4_or_cooper_status := SFP_OM4_LEN_VALID }
      (by decide) (by decide)).2.2 (by decide)⟩

/-! ## Identifier (byte 0) -/

/-- C7: for a buffer whose byte 0 is `b` and any record, `sfp_parse_a0_base_identifier`
followed by `sfp_a0_get_identifier` returns the named variant of a known code:
0x02 gives `SFP_ID_GBIC`, 0x03 gives `SFP_ID_SFP`, 0x0C gives `SFP_ID_QSFP`, 0x11 gives
`SFP_ID_QSFP_PLUS` and 0x18 gives `SFP_ID_QSFP28`. -/
theorem identifier_known_codes (data : List uint8_t) (b : uint8_t) (r : sfp_a0h_base_t)
    (h0 : data[0]? = some b) :
    (b.val = 0x02 →
      (sfp_parse_a0_base_identifier (some data) (some r)).map sfp_a0_get_identifier
        = .ok SFP_ID_GBIC) ∧
    (b.val = 0x03 →
      (sfp_parse_a0_base_identifier (some data) (some r)).map sfp_a0_get_identifier
        = .ok SFP_ID_SFP) ∧
    (b.val = 0x0C →
      (sfp_parse_a0_base_identifier (some data) (some r)).map sfp_a0_get_identifier
        = .ok SFP_ID_QSFP) ∧
    (b.val = 0x11 →
      (sfp_parse_a0_base_identifier (some data) (some r)).map sfp_a0_get_identifier
        = .ok SFP_ID_QSFP_PLUS) ∧
    (b.val = 0x18 →
      (sfp_parse_a0_base_identifier (some data) (some r)).map sfp_a0_get_identifier
        = .ok SFP_ID_QSFP28) := by
  have hv : (sfp_parse_a0_base_identifier (some data) (some r)).map sfp_a0_get_identifier
      = .ok b.val := by
    simp [sfp_parse_a0_base_identifier, read_u8_of_getElem? h0, Except.map,
      sfp_a0_get_identifier]
  rw [hv]
  refine ⟨?_, ?_, ?_, ?_, ?_⟩ <;> intro hb <;> rw [hb] <;> rfl

/-- Witness for C7: the five known codes in byte 0 of a 64-octet buffer. -/
theorem identifier_known_codes_witness :
    (sfp_parse_a0_base_identifier (some (0x02 :: List.replicate 63 0))
        (some a0_zero)).map sfp_a0_get_identifier = .ok SFP_ID_GBIC ∧
    (sfp_parse_a0_base_identifier (some (0x03 :: List.replicate 63 0))
        (some a0_zero)).map sfp_a0_get_identifier = .ok SFP_ID_SFP ∧
    (sfp_parse_a0_base_identifier (some (0x0C :: List.replicate 63 0))
        (some a0_zero)).map sfp_a0_get_identifier = .ok SFP_ID_QSFP ∧
    (sfp_parse_a0_base_identifier (some (0x11 :: List.replicate 63 0))
        (some a0_zero)).map sfp_a0_get_identifier = .ok SFP_ID_QSFP_PLUS ∧
    (sfp_parse_a0_base_identifier (some (0x18 :: List.replicate 63 0))
        (some a0_zero)).map sfp_a0_get_identifier = .ok SFP_ID_QSFP28 :=
  ⟨(identifier_known_codes (0x02 :: List.replicate 63 0) 0x02 a0_zero rfl).1 rfl,
   (identifier_known_codes (0x03 :: List.replicate 63 0) 0x03 a0_zero rfl).2.1 rfl,
   (identifier_known_codes (0x0C :: List.replicate 63 0) 0x0C a0_zero rfl).2.2.1 rfl,
   (identifier_known_codes (0x11 :: List.replicate 63 0) 0x11 a0_zero rfl).2.2.2.1 rfl,
   (identifier_known_codes (0x18 :: List.replicate 63 0) 0x18 a0_zero rfl).2.2.2.2 rfl⟩

/-- C6, as amended: for a buffer whose byte 0 is `b`, not one of 0x02, 0x03, 0x0C, 0x11,
0x18, `sfp_parse_a0_base_identifier` followed by `sfp_a0_get_identifier` yields the value
of `b` itself, cast unchanged to `sfp_identifier_t`; that value is `SFP_ID_UNKNOWN` exactly
when `b` is 0x00, and it is never one of the five named known variants. -/
theorem identifier_unlisted_code_is_raw_byte (data : List uint8_t) (b : uint8_t)
    (r : sfp_a0h_base_t) (h0 : data[0]? = some b)
    (hb : b.val ∉ [0x02, 0x03, 0x0C, 0x11, 0x18]) :
    (sfp_parse_a0_base_identifier (some data) (some r)).map sfp_a0_get_identifier
        = .ok b.val ∧
    (b.val = SFP_ID_UNKNOWN ↔ b.val = 0x00) ∧
    b.val ∉ [SFP_ID_GBIC, SFP_ID_SFP, SFP_ID_QSFP, SFP_ID_QSFP_PLUS, SFP_ID_QSFP28] := by
  refine ⟨?_, Iff.rfl, hb⟩
  simp [sfp_parse_a0_base_identifier, read_u8_of_getElem? h0, Except.map,
    sfp_a0_get_identifier]

/-- Witness for the amended C6 at byte 0 = 0x05. -/
theorem identifier_unlisted_code_is_raw_byte_witness :
    (sfp_parse_a0_base_identifier (some (0x05 :: List.replicate 63 0))
        (some a0_zero)).map sfp_a0_get_identifier = .ok 0x05 ∧
    ((0x05 : Nat) = SFP_ID_UNKNOWN ↔ (0x05 : Nat) = 0x00) ∧
    (0x05 : Nat) ∉ [SFP_ID_GBIC, SFP_ID_SFP, SFP_ID_QSFP, SFP_ID_QSFP_PLUS, SFP_ID_QSFP28] :=
  identifier_unlisted_code_is_raw_byte (0x05 :: List.replicate 63 0) 0x05 a0_zero rfl
    (by decide)

/-- C6 as stated fails: with byte 0 = 0x05, which is none of the five known codes,
`sfp_parse_a0_base_identifier` followed by `sfp_a0_get_identifier` yields 0x05, not
`SFP_ID_UNKNOWN`. -/
theorem identifier_unknown_fallback_counterexample :
    (0x05 : Nat) ∉ [0x02, 0x03, 0x0C, 0x11, 0x18] ∧
    (0x05 :: List.replicate 63 0 : List uint8_t)[0]? = some 0x05 ∧
    (sfp_parse_a0_base_identifier (some (0x05 :: List.replicate 63 0))
        (some a0_zero)).map sfp_a0_get_identifier = .ok 0x05 ∧
    (sfp_parse_a0_base_identifier (some (0x05 :: List.replicate 63 0))
        (some a0_zero)).map sfp_a0_get_identifier ≠ .ok SFP_ID_UNKNOWN := by
  refine ⟨by decide, rfl, rfl, ?_⟩
  intro h
  have h5 : (Except.ok 0x05 : Except Fault sfp_identifier_t) = .ok SFP_ID_UNKNOWN := h
  injection h5 with h5
  exact absurd h5 (by decide)

/-! ## End to end -/

/-- C8: on the 64-octet buffer with byte 0 = 0x03, byte 8 = 0x00, byte 17 = 0x19 and
byte 18 = 0x0A (all other octets zero) and a zero-initialised record, the sequence of
`main` reads back identifier `SFP_ID_SFP`, OM1 = (250, Valid) and OM4 = (100, Valid)
through the three getters, whatever the locals `om1_status` and `om4_status` held before,
and byte 8 is classified as not copper. -/
theorem main_decode_example (s1 : sfp_om1_length_status_t) (s4 : sfp_om4_length_status_t) :
    example_buffer.length = 64 ∧
    main_decode example_buffer s1 s4
      = .ok { id := SFP_ID_SFP
              om1_length_m := 250
              om1_status := some SFP_OM1_LEN_VALID
              om4_length_m := 100
              om4_status := some SFP_OM4_LEN_VALID } ∧
    example_buffer[8]?.map sfp_is_copper = some false :=
  ⟨rfl, rfl, rfl⟩

/-! ## Absent and short buffers -/

/-- The array read succeeds below the length. -/
theorem read_u8_of_lt (data : List uint8_t) (i : Nat) (h : i < data.length) :
    ∃ b, read_u8 data i = .ok b :=
  ⟨data[i], read_u8_of_getElem? (List.getElem?_eq_getElem h)⟩

/-- C9, as amended: with an absent (null) buffer the three parsers complete and leave the
record as it was, so a zero-initialised record keeps the defaults (`SFP_ID_UNKNOWN`,
`(0, SFP_OM1_LEN_NOT_SUPPORTED)`, `(0, SFP_OM4_LEN_NOT_SUPPORTED)`); with a present buffer
and record they take no length and check none: they complete exactly when the buffer
holds the octets they index (at least 1 for the identifier, 18 for OM1, 19 for OM4 or
copper), and on a shorter buffer the read lies outside the buffer. -/
theorem parsers_total_on_absent_or_covering_buffer (data : List uint8_t)
    (r : sfp_a0h_base_t) (s1 : sfp_om1_length_status_t) (s4 : sfp_om4_length_status_t) :
    (sfp_parse_a0_base_identifier none (some r) = .ok (some r) ∧
      sfp_parse_a0_base_om1 none (some r) = .ok (some r) ∧
      sfp_parse_a0_base_om4_or_copper none (some r) = .ok (some r)) ∧
    ((sfp_parse_a0_base_identifier none (some a0_zero)).map sfp_a0_get_identifier
        = .ok SFP_ID_UNKNOWN ∧
      (sfp_parse_a0_base_om1 none (some a0_zero) >>= fun a0 =>
          sfp_a0_get_om1_length_m a0 (some s1)) = .ok (0, some SFP_OM1_LEN_NOT_SUPPORTED) ∧
      (sfp_parse_a0_base_om4_or_copper none (some a0_zero) >>= fun a0 =>
          sfp_a0_get_om4_copper_or_length_m a0 (some s4))
        = .ok (0, some SFP_OM4_LEN_NOT_SUPPORTED)) ∧
    ((1 ≤ data.length →
        ∃ r1, sfp_parse_a0_base_identifier (some data) (some r) = .ok (some r1)) ∧
      (data.length < 1 →
        sfp_parse_a0_base_identifier (some data) (some r)
          = .error Fault.out_of_bounds_read)) ∧
    ((18 ≤ data.length →
        ∃ r1, sfp_parse_a0_base_om1 (some data) (some r) = .ok (some r1)) ∧
      (data.length < 18 →
        sfp_parse_a0_base_om1 (some data) (some r) = .error Fault.out_of_bounds_read)) ∧
    ((19 ≤ data.length →
        ∃ r1, sfp_parse_a0_base_om4_or_copper (some data) (some r) = .ok (some r1)) ∧
      (data.length < 19 →
        sfp_parse_a0_base_om4_or_copper (some data) (some r)
          = .error Fault.out_of_bounds_read)) := by
  refine ⟨⟨rfl, rfl, rfl⟩, ⟨rfl, rfl, rfl⟩, ⟨?_, ?_⟩, ⟨?_, ?_⟩, ⟨?_, ?_⟩⟩
  · intro h
    obtain ⟨b, hb⟩ := read_u8_of_lt data 0 (by omega)
    simp only [sfp_parse_a0_base_identifier, hb]
    exact ⟨_, rfl⟩
  · intro h
    simp only [sfp_parse_a0_base_identifier, read_u8_of_le data 0 (by omega)]
  · intro h
    obtain ⟨b, hb⟩ := read_u8_of_lt data 17 (by omega)
    simp only [sfp_parse_a0_base_om1, hb]
    split_ifs <;> exact ⟨_, rfl⟩
  · intro h
    simp only [sfp_parse_a0_base_om1, read_u8_of_le data 17 (by omega)]
  · intro h
    obtain ⟨b, hb⟩ := read_u8_of_lt data 18 (by omega)
    obtain ⟨m, hm⟩ := read_u8_of_lt data 8 (by omega)
    simp only [sfp_parse_a0_base_om4_or_copper, hb, hm]
    split_ifs <;> exact ⟨_, rfl⟩
  · intro h
    simp only [sfp_parse_a0_base_om4_or_copper,
      read_u8_of_le data 18 (by omega)]

/-- Witness for the amended C9: a 64-octet buffer of zeros is decoded by the three parsers,
and the buffers of 0, 17 and 18 octets are read outside their bounds. -/
theorem parsers_total_on_absent_or_covering_buffer_witness :
    ((∃ r1, sfp_parse_a0_base_identifier (some (List.replicate 64 0)) (some a0_zero)
        = .ok (some r1)) ∧
      (∃ r1, sfp_parse_a0_base_om1 (some (List.replicate 64 0)) (some a0_zero)
        = .ok (some r1)) ∧
      (∃ r1, sfp_parse_a0_base_om4_or_copper (some (List.replicate 64 0)) (some a0_zero)
        = .ok (some r1))) ∧
    (sfp_parse_a0_base_identifier (some []) (some a0_zero)
        = .error Fault.out_of_bounds_read ∧
      sfp_parse_a0_base_om1 (some (List.replicate 17 0)) (some a0_zero)
        = .error Fault.out_of_bounds_read ∧
      sfp_parse_a0_base_om4_or_copper (some (List.replicate 18 0)) (some a0_zero)
        = .error Fault.out_of_bounds_read) :=
  ⟨⟨(parsers_total_on_absent_or_covering_buffer (List.replicate 64 0) a0_zero
        SFP_OM1_LEN_VALID SFP_OM4_LEN_VALID).2.2.1.1 (by decide),
    (parsers_total_on_absent_or_covering_buffer (List.replicate 64 0) a0_zero
        SFP_OM1_LEN_VALID SFP_OM4_LEN_VALID).2.2.2.1.1 (by decide),
    (parsers_total_on_absent_or_covering_buffer (List.replicate 64 0) a0_zero
        SFP_OM1_LEN_VALID SFP_OM4_LEN_VALID).2.2.2.2.1 (by decide)⟩,
   ⟨(parsers_total_on_absent_or_covering_buffer [] a0_zero
        SFP_OM1_LEN_VALID SFP_OM4_LEN_VALID).2.2.1.2 (by decide),
    (parsers_total_on_absent_or_covering_buffer (List.replicate 17 0) a0_zero
        SFP_OM1_LEN_VALID SFP_OM4_LEN_VALID).2.2.2.1.2 (by decide),
    (parsers_total_on_absent_or_covering_buffer (List.replicate 18 0) a0_zero
        SFP_OM1_LEN_VALID SFP_OM4_LEN_VALID).2.2.2.2.2 (by decide)⟩⟩

/-- C9 as stated fails: on present buffers shorter than the offset of the decoded field
(0 octets for the identifier, 17 for OM1, 18 for OM4 or copper) the parsers read outside
the buffer instead of producing a default. -/
theorem parsers_short_buffer_counterexample :
    ([] : List uint8_t).length < 1 ∧
    sfp_parse_a0_base_identifier (some []) (some a0_zero)
      = .error Fault.out_of_bounds_read ∧
    (List.replicate 17 0 : List uint8_t).length < 18 ∧
    sfp_parse_a0_base_om1 (some (List.replicate 17 0)) (some a0_zero)
      = .error Fault.out_of_bounds_read ∧
    (List.replicate 18 0 : List uint8_t).length < 19 ∧
    sfp_parse_a0_base_om4_or_copper (some (List.replicate 18 0)) (some a0_zero)
      = .error Fault.out_of_bounds_read :=
  ⟨by decide, rfl, by decide, rfl, by decide, rfl⟩

/-! ## The OM4 getter on null arguments -/

/-- C10, at the failing input: with a null record and a null status pointer
`sfp_a0_get_om4_copper_or_length_m` performs the store `*status = ...` through the null
pointer (its guard is `!status`), whereas `sfp_a0_get_om1_length_m` on the same arguments
writes nothing and returns 0; on the three other combinations of present and absent
arguments the OM4 getter performs no store through a null pointer. -/
theorem om4_getter_null_record_null_status (r : sfp_a0h_base_t)
    (s : sfp_om4_length_status_t) :
    sfp_a0_get_om4_copper_or_length_m none none = .error Fault.null_write ∧
    sfp_a0_get_om1_length_m none none = .ok (0, none) ∧
    sfp_a0_get_om4_copper_or_length_m none (some s) = .ok (0, some s) ∧
    sfp_a0_get_om4_copper_or_length_m (some r) none = .ok (r.om4_or_cooper_length_m, none) ∧
    sfp_a0_get_om4_copper_or_length_m (some r) (some s)
      = .ok (r.om4_or_cooper_length_m, some r.om4_or_cooper_status) :=
  ⟨rfl, rfl, rfl, rfl, rfl⟩

/-! ## Closed forms of the three parse functions -/

/-- On a buffer holding byte 0 the identifier parser stores the value of that byte. -/
theorem parse_identifier_closed (data : List uint8_t) (b : uint8_t) (r : sfp_a0h_base_t)
    (h0 : data[0]? = some b) :
    sfp_parse_a0_base_identifier (some data) (some r)
      = .ok (some { r with identifier := b.val }) := by
  simp only [sfp_parse_a0_base_identifier, read_u8_of_getElem? h0]

/-- On a buffer holding byte 17 the OM1 parser stores a pair that depends on that byte
alone, by the three-way case split of the source. -/
theorem parse_om1_closed (data : List uint8_t) (b : uint8_t) (h17 : data[17]? = some b) :
    ∃ (l : Nat) (s : sfp_om1_length_status_t),
      (∀ r : sfp_a0h_base_t, sfp_parse_a0_base_om1 (some data) (some r)
        = .ok (some { r with om1_length_m := l, om1_status := s })) ∧
      ((b.val = 0x00 ∧ l = 0 ∧ s = SFP_OM1_LEN_NOT_SUPPORTED) ∨
       (b.val = 0xFF ∧ l = 2540 ∧ s = SFP_OM1_LEN_EXTENDED) ∨
       (0x01 ≤ b.val ∧ b.val ≤ 0xFE ∧ l = b.val * 10 ∧ s = SFP_OM1_LEN_VALID)) := by
  have hlt : b.val < 256 := b.isLt
  by_cases h0 : b.val = 0x00
  · refine ⟨0, SFP_OM1_LEN_NOT_SUPPORTED, fun r => ?_, Or.inl ⟨h0, rfl, rfl⟩⟩
    simp [sfp_parse_a0_base_om1, read_u8_of_getElem? h17, h0]
  · by_cases hF : b.val = 0xFF
    · refine ⟨2540, SFP_OM1_LEN_EXTENDED, fun r => ?_, Or.inr (Or.inl ⟨hF, rfl, rfl⟩)⟩
      simp [sfp_parse_a0_base_om1, read_u8_of_getElem? h17, hF]
    · have hm : b.val * 10 % 65536 = b.val * 10 := Nat.mod_eq_of_lt (by omega)
      refine ⟨b.val * 10, SFP_OM1_LEN_VALID, fun r => ?_,
        Or.inr (Or.inr ⟨by omega, by omega, rfl, rfl⟩)⟩
      simp [sfp_parse_a0_base_om1, read_u8_of_getElem? h17, h0, hF, hm]

/-- On a buffer holding bytes 18 and 8 the OM4 or copper parser stores a pair that depends
on byte 18 and on the copper classification of byte 8 alone. -/
theorem parse_om4_closed (data : List uint8_t) (b m : uint8_t)
    (h18 : data[18]? = some b) (h8 : data[8]? = some m) :
    ∃ (l : Nat) (s : sfp_om4_length_status_t),
      (∀ r : sfp_a0h_base_t, sfp_parse_a0_base_om4_or_copper (some data) (some r)
        = .ok (some { r with om4_or_cooper_length_m := l, om4_or_cooper_status := s })) ∧
      ((b.val = 0x00 ∧ l = 0 ∧ s = SFP_OM4_LEN_NOT_SUPPORTED) ∨
       (b.val = 0xFF ∧ l = (if sfp_is_copper m = true then 254 else 2540) ∧
          s = SFP_OM4_LEN_EXTENDED) ∨
       (0x01 ≤ b.val ∧ b.val ≤ 0xFE ∧
          l = (if sfp_is_copper m = true then b.val else b.val * 10) ∧
          s = SFP_OM4_LEN_VALID)) := by
  have hlt : b.val < 256 := b.isLt
  by_cases h0 : b.val = 0x00
  · refine ⟨0, SFP_OM4_LEN_NOT_SUPPORTED, fun r => ?_, Or.inl ⟨h0, rfl, rfl⟩⟩
    simp [sfp_parse_a0_base_om4_or_copper, read_u8_of_getElem? h18, read_u8_of_getElem? h8, h0]
  · by_cases hF : b.val = 0xFF
    · refine ⟨if sfp_is_copper m = true then 254 else 2540, SFP_OM4_LEN_EXTENDED,
        fun r => ?_, Or.inr (Or.inl ⟨hF, rfl, rfl⟩)⟩
      cases hc : sfp_is_copper m <;>
        simp [sfp_parse_a0_base_om4_or_copper, read_u8_of_getElem? h18,
          read_u8_of_getElem? h8, hF, hc]
    · have hm : b.val * 10 % 65536 = b.val * 10 := Nat.mod_eq_of_lt (by omega)
      refine ⟨if sfp_is_copper m = true then b.val else b.val * 10, SFP_OM4_LEN_VALID,
        fun r => ?_, Or.inr (Or.inr ⟨by omega, by omega, rfl, rfl⟩)⟩
      cases hc : sfp_is_copper m <;>
        simp [sfp_parse_a0_base_om4_or_copper, read_u8_of_getElem? h18,
          read_u8_of_getElem? h8, h0, hF, hm, hc]

/-- A buffer holds every index below its length. -/
theorem getElem?_of_lt (data : List uint8_t) (i : Nat) (h : i < data.length) :
    ∃ b, data[i]? = some b :=
  ⟨data[i], List.getElem?_eq_getElem h⟩

/-! ## Getters on null arguments -/

/-- C11, at the failing input: with a null record and a status pointer to an object
holding `SFP_OM4_LEN_VALID`, `sfp_a0_get_om4_copper_or_length_m` returns 0 and leaves the
object at `SFP_OM4_LEN_VALID` (its guard `!status` skips the store), whereas
`sfp_a0_get_om1_length_m` in the same situation stores `SFP_OM1_LEN_NOT_SUPPORTED`. -/
theorem om4_getter_null_record_keeps_prior_status :
    sfp_a0_get_om4_copper_or_length_m none (some SFP_OM4_LEN_VALID)
      = .ok (0, some SFP_OM4_LEN_VALID) ∧
    sfp_a0_get_om4_copper_or_length_m none (some SFP_OM4_LEN_VALID)
      ≠ .ok (0, some SFP_OM4_LEN_NOT_SUPPORTED) ∧
    sfp_a0_get_om1_length_m none (some SFP_OM1_LEN_VALID)
      = .ok (0, some SFP_OM1_LEN_NOT_SUPPORTED) := by
  refine ⟨rfl, ?_, rfl⟩
  intro h
  have h1 : (Except.ok (0, some SFP_OM4_LEN_VALID) :
      Except Fault (Nat × Option sfp_om4_length_status_t))
      = .ok (0, some SFP_OM4_LEN_NOT_SUPPORTED) := h
  injection h1 with h1
  exact absurd h1 (by decide)

/-- C12: with a null record `sfp_a0_get_identifier` returns `SFP_ID_UNKNOWN` and
`sfp_a0_get_om1_length_m` returns 0, storing `SFP_OM1_LEN_NOT_SUPPORTED` through a present
status pointer and nothing through a null one; with a present record the two getters
return the stored identifier and the stored pair `(om1_length_m, om1_status)` (the status
only through a present status pointer). -/
theorem identifier_and_om1_getters (r : sfp_a0h_base_t) (s : sfp_om1_length_status_t) :
    sfp_a0_get_identifier none = SFP_ID_UNKNOWN ∧
    sfp_a0_get_om1_length_m none (some s) = .ok (0, some SFP_OM1_LEN_NOT_SUPPORTED) ∧
    sfp_a0_get_om1_length_m none none = .ok (0, none) ∧
    sfp_a0_get_identifier (some r) = r.identifier ∧
    sfp_a0_get_om1_length_m (some r) (some s) = .ok (r.om1_length_m, some r.om1_status) ∧
    sfp_a0_get_om1_length_m (some r) none = .ok (r.om1_length_m, none) :=
  ⟨rfl, rfl, rfl, rfl, rfl, rfl⟩

/-! ## Record invariant, frame, idempotence -/

/-- C13: the invariant `record_inv` holds for the zero-initialised record, and for a buffer
of at least 64 octets each of `sfp_parse_a0_base_identifier`, `sfp_parse_a0_base_om1` and
`sfp_parse_a0_base_om4_or_copper` turns a record satisfying it into a record satisfying
it. -/
theorem record_inv_preserved (data : List uint8_t) (r : sfp_a0h_base_t)
    (hlen : SFP_A0_BASE_SIZE ≤ data.length) (hr : record_inv r) :
    record_inv a0_zero ∧
    (∃ r1, sfp_parse_a0_base_identifier (some data) (some r) = .ok (some r1) ∧
      record_inv r1) ∧
    (∃ r1, sfp_parse_a0_base_om1 (some data) (some r) = .ok (some r1) ∧ record_inv r1) ∧
    (∃ r1, sfp_parse_a0_base_om4_or_copper (some data) (some r) = .ok (some r1) ∧
      record_inv r1) := by
  have hlen64 : 64 ≤ data.length := hlen
  obtain ⟨b0, h0⟩ := getElem?_of_lt data 0 (by omega)
  obtain ⟨b17, h17⟩ := getElem?_of_lt data 17 (by omega)
  obtain ⟨b18, h18⟩ := getElem?_of_lt data 18 (by omega)
  obtain ⟨b8, h8⟩ := getElem?_of_lt data 8 (by omega)
  obtain ⟨l1, s1, hp1, hc1⟩ := parse_om1_closed data b17 h17
  obtain ⟨l4, s4, hp4, hc4⟩ := parse_om4_closed data b18 b8 h18 h8
  obtain ⟨i1, i2, i3, i4, i5, i6⟩ := hr
  refine ⟨by decide, ⟨_, parse_identifier_closed data b0 r h0, ?_⟩, ⟨_, hp1 r, ?_⟩,
    ⟨_, hp4 r, ?_⟩⟩
  · exact ⟨i1, i2, i3, i4, i5, i6⟩
  · refine ⟨?_, ?_, ?_, i4, i5, i6⟩ <;>
      rcases hc1 with ⟨_, hl, hs⟩ | ⟨_, hl, hs⟩ | ⟨_, _, hl, hs⟩ <;>
      (subst hl; subst hs; intro h; simp at h ⊢ <;> omega)
  · refine ⟨i1, i2, i3, ?_, ?_, ?_⟩ <;>
      rcases hc4 with ⟨_, hl, hs⟩ | ⟨_, hl, hs⟩ | ⟨_, _, hl, hs⟩ <;>
      (subst hl; subst hs; intro h; simp at h ⊢ <;> first | omega | (split_ifs <;> omega))

/-- Witness for C13: the zero record and a 64-octet buffer of 0xFF octets. -/
theorem record_inv_preserved_witness :
    record_inv a0_zero ∧
    (∃ r1, sfp_parse_a0_base_identifier (some (List.replicate 64 0xFF)) (some a0_zero)
        = .ok (some r1) ∧ record_inv r1) ∧
    (∃ r1, sfp_parse_a0_base_om1 (some (List.replicate 64 0xFF)) (some a0_zero)
        = .ok (some r1) ∧ record_inv r1) ∧
    (∃ r1, sfp_parse_a0_base_om4_or_copper (some (List.replicate 64 0xFF)) (some a0_zero)
        = .ok (some r1) ∧ record_inv r1) :=
  record_inv_preserved (List.replicate 64 0xFF) a0_zero (by decide) (by decide)

/-- A successful call leaves the buffer object alone and yields the record the parse
function computes. -/
theorem call_parse_ok
    (f : Option (List uint8_t) → Option sfp_a0h_base_t → Except Fault (Option sfp_a0h_base_t))
    (m m1 : parse_mem_t) (h : call_parse f m = .ok m1) :
    m1.a0_base_data = m.a0_base_data ∧ f m.a0_base_data m.a0 = .ok m1.a0 := by
  unfold call_parse at h
  split at h
  · cases h
  · next a0 hf =>
    injection h with h
    subst h
    exact ⟨rfl, hf⟩

/-- A completed identifier parse on a present record changes the identifier at most. -/
theorem parse_identifier_frame (data : Option (List uint8_t)) (r : sfp_a0h_base_t)
    (a : Option sfp_a0h_base_t) (h : sfp_parse_a0_base_identifier data (some r) = .ok a) :
    ∃ r1, a = some r1 ∧ r1 = { r with identifier := r1.identifier } := by
  cases data with
  | none =>
    injection h with h
    exact ⟨r, h.symm, rfl⟩
  | some l =>
    cases hb : l[0]? with
    | none =>
      have hlen : l.length ≤ 0 := by
        by_contra hc
        obtain ⟨b, hb1⟩ := getElem?_of_lt l 0 (by omega)
        rw [hb] at hb1
        cases hb1
      simp only [sfp_parse_a0_base_identifier, read_u8_of_le l 0 hlen] at h
      cases h
    | some b =>
      rw [parse_identifier_closed l b r hb] at h
      injection h with h
      exact ⟨_, h.symm, rfl⟩

/-- A completed OM1 parse on a present record changes the OM1 pair at most. -/
theorem parse_om1_frame (data : Option (List uint8_t)) (r : sfp_a0h_base_t)
    (a : Option sfp_a0h_base_t) (h : sfp_parse_a0_base_om1 data (some r) = .ok a) :
    ∃ r1, a = some r1 ∧
      r1 = { r with om1_length_m := r1.om1_length_m, om1_status := r1.om1_status } := by
  cases data with
  | none =>
    injection h with h
    exact ⟨r, h.symm, rfl⟩
  | some l =>
    cases hb : l[17]? with
    | none =>
      have hlen : l.length ≤ 17 := by
        by_contra hc
        obtain ⟨b, hb1⟩ := getElem?_of_lt l 17 (by omega)
        rw [hb] at hb1
        cases hb1
      simp only [sfp_parse_a0_base_om1, read_u8_of_le l 17 hlen] at h
      cases h
    | some b =>
      obtain ⟨l1, s1, hp, _⟩ := parse_om1_closed l b hb
      rw [hp r] at h
      injection h with h
      exact ⟨_, h.symm, rfl⟩

/-- A completed OM4 or copper parse on a present record changes the OM4 pair at most. -/
theorem parse_om4_frame (data : Option (List uint8_t)) (r : sfp_a0h_base_t)
    (a : Option sfp_a0h_base_t)
    (h : sfp_parse_a0_base_om4_or_copper data (some r) = .ok a) :
    ∃ r1, a = some r1 ∧
      r1 = { r with om4_or_cooper_length_m := r1.om4_or_cooper_length_m
                    om4_or_cooper_status := r1.om4_or_cooper_status } := by
  cases data with
  | none =>
    injection h with h
    exact ⟨r, h.symm, rfl⟩
  | some l =>
    cases hb : l[18]? with
    | none =>
      have hlen : l.length ≤ 18 := by
        by_contra hc
        obtain ⟨b, hb1⟩ := getElem?_of_lt l 18 (by omega)
        rw [hb] at hb1
        cases hb1
      simp only [sfp_parse_a0_base_om4_or_copper, read_u8_of_le l 18 hlen] at h
      cases h
    | some b =>
      have hlen : 18 < l.length := by
        by_contra hc
        rw [List.getElem?_eq_none (by omega)] at hb
        cases hb
      obtain ⟨m, hm⟩ := getElem?_of_lt l 8 (by omega)
      obtain ⟨l4, s4, hp, _⟩ := parse_om4_closed l b m hb hm
      rw [hp r] at h
      injection h with h
      exact ⟨_, h.symm, rfl⟩

/-- C14: for every raw buffer (absent or present, of any length) and every record, a
completed call of `sfp_parse_a0_base_identifier` leaves the buffer as it is and changes no
member of the record other than `identifier`; a completed call of `sfp_parse_a0_base_om1`
leaves the buffer as it is and changes no member other than `om1_length_m` and
`om1_status`; a completed call of `sfp_parse_a0_base_om4_or_copper` leaves the buffer as it
is and changes no member other than `om4_or_cooper_length_m` and
`om4_or_cooper_status`. -/
theorem parsers_frame (data : Option (List uint8_t)) (r : sfp_a0h_base_t) :
    (∀ m, call_parse sfp_parse_a0_base_identifier { a0_base_data := data, a0 := some r }
        = .ok m →
      m.a0_base_data = data ∧
      ∃ r1, m.a0 = some r1 ∧ r1 = { r with identifier := r1.identifier }) ∧
    (∀ m, call_parse sfp_parse_a0_base_om1 { a0_base_data := data, a0 := some r } = .ok m →
      m.a0_base_data = data ∧
      ∃ r1, m.a0 = some r1 ∧
        r1 = { r with om1_length_m := r1.om1_length_m, om1_status := r1.om1_status }) ∧
    (∀ m, call_parse sfp_parse_a0_base_om4_or_copper { a0_base_data := data, a0 := some r }
        = .ok m →
      m.a0_base_data = data ∧
      ∃ r1, m.a0 = some r1 ∧
        r1 = { r with om4_or_cooper_length_m := r1.om4_or_cooper_length_m
                      om4_or_cooper_status := r1.om4_or_cooper_status }) := by
  refine ⟨fun m h => ?_, fun m h => ?_, fun m h => ?_⟩
  · obtain ⟨hb, hf⟩ := call_parse_ok _ _ _ h
    exact ⟨hb, parse_identifier_frame data r m.a0 hf⟩
  · obtain ⟨hb, hf⟩ := call_parse_ok _ _ _ h
    exact ⟨hb, parse_om1_frame data r m.a0 hf⟩
  · obtain ⟨hb, hf⟩ := call_parse_ok _ _ _ h
    exact ⟨hb, parse_om4_frame data r m.a0 hf⟩

/-- Witness for C14: the three calls on the example buffer and the zero record complete,
keep the buffer and change their own members only. -/
theorem parsers_frame_witness :
    ((({ a0_base_data := some example_buffer
         a0 := some { a0_zero with identifier := 3 } } : parse_mem_t).a0_base_data
        = some example_buffer) ∧
      ∃ r1, some { a0_zero with identifier := 3 } = some r1 ∧
        r1 = { a0_zero with identifier := r1.identifier }) ∧
    ((({ a0_base_data := some example_buffer
         a0 := some { a0_zero with om1_length_m := 250
                                   om1_status := SFP_OM1_LEN_VALID } } :
          parse_mem_t).a0_base_data = some example_buffer) ∧
      ∃ r1, some { a0_zero with om1_length_m := 250, om1_status := SFP_OM1_LEN_VALID }
          = some r1 ∧
        r1 = { a0_zero with om1_length_m := r1.om1_length_m
                            om1_status := r1.om1_status }) ∧
    ((({ a0_base_data := some example_buffer
         a0 := some { a0_zero with om4_or_cooper_length_m := 100
                                   om4_or_cooper_status := SFP_OM4_LEN_VALID } } :
          parse_mem_t).a0_base_data = some example_buffer) ∧
      ∃ r1, some { a0_zero with om4_or_cooper_length_m := 100
                                om4_or_cooper_status := SFP_OM4_LEN_VALID } = some r1 ∧
        r1 = { a0_zero with om4_or_cooper_length_m := r1.om4_or_cooper_length_m
                            om4_or_cooper_status := r1.om4_or_cooper_status }) :=
  ⟨(parsers_frame (some example_buffer) a0_zero).1
      { a0_base_data := some example_buffer, a0 := some { a0_zero with identifier := 3 } }
      rfl,
   (parsers_frame (some example_buffer) a0_zero).2.1
      { a0_base_data := some example_buffer
        a0 := some { a0_zero with om1_length_m := 250, om1_status := SFP_OM1_LEN_VALID } }
      rfl,
   (parsers_frame (some example_buffer) a0_zero).2.2
      { a0_base_data := some example_buffer
        a0 := some { a0_zero with om4_or_cooper_length_m := 100
                                  om4_or_cooper_status := SFP_OM4_LEN_VALID } }
      rfl⟩

/-- C15: for a buffer of at least 64 octets and any starting record, each of the three
parse functions, applied again to its own result with the same buffer, returns that result
unchanged, and so does the whole sequence identifier, OM1, OM4 or copper of `main`. -/
theorem parsers_idempotent (data : List uint8_t) (r : sfp_a0h_base_t)
    (hlen : SFP_A0_BASE_SIZE ≤ data.length) :
    (∃ r1, sfp_parse_a0_base_identifier (some data) (some r) = .ok (some r1) ∧
      sfp_parse_a0_base_identifier (some data) (some r1) = .ok (some r1)) ∧
    (∃ r1, sfp_parse_a0_base_om1 (some data) (some r) = .ok (some r1) ∧
      sfp_parse_a0_base_om1 (some data) (some r1) = .ok (some r1)) ∧
    (∃ r1, sfp_parse_a0_base_om4_or_copper (some data) (some r) = .ok (some r1) ∧
      sfp_parse_a0_base_om4_or_copper (some data) (some r1) = .ok (some r1)) ∧
    (∃ r1, decode_sequence (some data) (some r) = .ok (some r1) ∧
      decode_sequence (some data) (some r1) = .ok (some r1)) := by
  have hlen64 : 64 ≤ data.length := hlen
  obtain ⟨b0, h0⟩ := getElem?_of_lt data 0 (by omega)
  obtain ⟨b17, h17⟩ := getElem?_of_lt data 17 (by omega)
  obtain ⟨b18, h18⟩ := getElem?_of_lt data 18 (by omega)
  obtain ⟨b8, h8⟩ := getElem?_of_lt data 8 (by omega)
  obtain ⟨l1, s1, hp1, _⟩ := parse_om1_closed data b17 h17
  obtain ⟨l4, s4, hp4, _⟩ := parse_om4_closed data b18 b8 h18 h8
  have hp0 := parse_identifier_closed data b0
  refine ⟨⟨_, hp0 r h0, ?_⟩, ⟨_, hp1 r, ?_⟩, ⟨_, hp4 r, ?_⟩, ?_⟩
  · rw [hp0 _ h0]
  · rw [hp1]
  · rw [hp4]
  · refine ⟨{ r with identifier := b0.val, om1_length_m := l1, om1_status := s1
                     om4_or_cooper_length_m := l4, om4_or_cooper_status := s4 }, ?_, ?_⟩
    · simp only [decode_sequence, hp0 _ h0, hp1, hp4]
    · simp only [decode_sequence, hp0 _ h0, hp1, hp4]

/-- Witness for C15 on the example buffer and the zero record. -/
theorem parsers_idempotent_witness :
    (∃ r1, sfp_parse_a0_base_identifier (some example_buffer) (some a0_zero)
        = .ok (some r1) ∧
      sfp_parse_a0_base_identifier (some example_buffer) (some r1) = .ok (some r1)) ∧
    (∃ r1, sfp_parse_a0_base_om1 (some example_buffer) (some a0_zero) = .ok (some r1) ∧
      sfp_parse_a0_base_om1 (some example_buffer) (some r1) = .ok (some r1)) ∧
    (∃ r1, sfp_parse_a0_base_om4_or_copper (some example_buffer) (some a0_zero)
        = .ok (some r1) ∧
      sfp_parse_a0_base_om4_or_copper (some example_buffer) (some r1) = .ok (some r1)) ∧
    (∃ r1, decode_sequence (some example_buffer) (some a0_zero) = .ok (some r1) ∧
      decode_sequence (some example_buffer) (some r1) = .ok (some r1)) :=
  parsers_idempotent example_buffer a0_zero (by decide)

/-! ## Injectivity of the OM1 decoding -/

/-- C16: the pair `(om1_length_m, om1_status)` stored by `sfp_parse_a0_base_om1` determines
byte 17: two buffers with bytes 17 `b1` and `b2` are both decoded, equal stored pairs force
`b1 = b2`, and the stored length is 0 only for the byte 0x00. -/
theorem om1_decoding_injective (d1 d2 : List uint8_t) (b1 b2 : uint8_t)
    (r1 r2 : sfp_a0h_base_t) (h1 : d1[17]? = some b1) (h2 : d2[17]? = some b2) :
    ∃ q1 q2, sfp_parse_a0_base_om1 (some d1) (some r1) = .ok (some q1) ∧
      sfp_parse_a0_base_om1 (some d2) (some r2) = .ok (some q2) ∧
      ((q1.om1_length_m, q1.om1_status) = (q2.om1_length_m, q2.om1_status) → b1 = b2) ∧
      (q1.om1_length_m = 0 ↔ b1.val = 0x00) := by
  obtain ⟨l1, s1, hp1, hc1⟩ := parse_om1_closed d1 b1 h1
  obtain ⟨l2, s2, hp2, hc2⟩ := parse_om1_closed d2 b2 h2
  refine ⟨_, _, hp1 r1, hp2 r2, ?_, ?_⟩
  · intro h
    have hl : l1 = l2 := congrArg Prod.fst h
    have hs : s1 = s2 := congrArg Prod.snd h
    apply Fin.ext
    rcases hc1 with ⟨e1, hl1, hs1⟩ | ⟨e1, hl1, hs1⟩ | ⟨e1, f1, hl1, hs1⟩ <;>
      rcases hc2 with ⟨e2, hl2, hs2⟩ | ⟨e2, hl2, hs2⟩ | ⟨e2, f2, hl2, hs2⟩ <;>
      first
        | omega
        | (rw [hs1, hs2] at hs; cases hs)
  · show l1 = 0 ↔ b1.val = 0x00
    rcases hc1 with ⟨e1, hl1, _⟩ | ⟨e1, hl1, _⟩ | ⟨e1, f1, hl1, _⟩ <;> omega

/-- Witness for C16: bytes 0xFE and 0xFF are both decoded to the length 2540, the first
with `SFP_OM1_LEN_VALID` and the second with `SFP_OM1_LEN_EXTENDED`. -/
theorem om1_decoding_injective_witness :
    (∃ q1 q2,
      sfp_parse_a0_base_om1 (some (List.replicate 64 0xFE)) (some a0_zero) = .ok (some q1) ∧
      sfp_parse_a0_base_om1 (some (List.replicate 64 0xFF)) (some a0_zero) = .ok (some q2) ∧
      ((q1.om1_length_m, q1.om1_status) = (q2.om1_length_m, q2.om1_status) →
        (0xFE : uint8_t) = 0xFF) ∧
      (q1.om1_length_m = 0 ↔ (0xFE : uint8_t).val = 0x00)) ∧
    sfp_parse_a0_base_om1 (some (List.replicate 64 0xFE)) (some a0_zero)
      = .ok (some { a0_zero with om1_length_m := 2540, om1_status := SFP_OM1_LEN_VALID }) ∧
    sfp_parse_a0_base_om1 (some (List.replicate 64 0xFF)) (some a0_zero)
      = .ok (some { a0_zero with om1_length_m := 2540
                                 om1_status := SFP_OM1_LEN_EXTENDED }) :=
  ⟨om1_decoding_injective (List.replicate 64 0xFE) (List.replicate 64 0xFF) 0xFE 0xFF
      a0_zero a0_zero (by decide) (by decide), rfl, rfl⟩

/-! ## Block read -/

/-- C17: `sfp_read_block` returns true iff the buffer is present, `length` is not 0, the
offset write transferred exactly 1 octet and the read transferred exactly `length` octets
(both transfers are then issued, in that order); with an absent buffer or `length` 0 it
returns false and issues no transfer; when the offset write did not transfer exactly 1
octet it returns false and issues the write only. -/
theorem sfp_read_block_spec (i2c : i2c_inst_t) (dev_addr start_offset : uint8_t)
    (buffer : Option (List uint8_t)) (length : uint8_t) :
    ((sfp_read_block i2c dev_addr start_offset buffer length).ret = true ↔
      ∃ buf, buffer = some buf ∧ length.val ≠ 0 ∧
        i2c.i2c_write_blocking dev_addr [start_offset] 1 true = 1 ∧
        (i2c.i2c_read_blocking dev_addr buf length.val false).1 = (length.val : Int)) ∧
    ((sfp_read_block i2c dev_addr start_offset buffer length).ret = true →
      (sfp_read_block i2c dev_addr start_offset buffer length).ops
        = [i2c_op.write_blocking dev_addr [start_offset] 1 true,
           i2c_op.read_blocking dev_addr length.val false]) ∧
    ((buffer = none ∨ length.val = 0) →
      (sfp_read_block i2c dev_addr start_offset buffer length).ret = false ∧
      (sfp_read_block i2c dev_addr start_offset buffer length).ops = []) ∧
    ((buffer ≠ none ∧ length.val ≠ 0 ∧
        i2c.i2c_write_blocking dev_addr [start_offset] 1 true ≠ 1) →
      (sfp_read_block i2c dev_addr start_offset buffer length).ret = false ∧
      (sfp_read_block i2c dev_addr start_offset buffer length).ops
        = [i2c_op.write_blocking dev_addr [start_offset] 1 true]) := by
  cases buffer with
  | none => simp [sfp_read_block]
  | some buf =>
    by_cases hl : length.val = 0
    · simp [sfp_read_block, hl]
    · by_cases hw : i2c.i2c_write_blocking dev_addr [start_offset] 1 true = 1
      · simp [sfp_read_block, hl, hw]
      · simp [sfp_read_block, hl, hw]

/-- Witness for C17: on an answering bus a 64-octet read of the A0h block succeeds after
the offset write and the read; on a bus with no device the call fails after the offset
write alone; with a null buffer or a zero length no transfer is issued. -/
theorem sfp_read_block_spec_witness :
    (sfp_read_block bus_ack 0x50 0x00 (some (List.replicate 64 0)) 64).ret = true ∧
    (sfp_read_block bus_ack 0x50 0x00 (some (List.replicate 64 0)) 64).ops
      = [i2c_op.write_blocking 0x50 [0x00] 1 true, i2c_op.read_blocking 0x50 64 false] ∧
    ((sfp_read_block bus_ack 0x50 0x00 none 64).ret = false ∧
      (sfp_read_block bus_ack 0x50 0x00 none 64).ops = []) ∧
    ((sfp_read_block bus_ack 0x50 0x00 (some (List.replicate 64 0)) 0).ret = false ∧
      (sfp_read_block bus_ack 0x50 0x00 (some (List.replicate 64 0)) 0).ops = []) ∧
    ((sfp_read_block bus_nack 0x50 0x00 (some (List.replicate 64 0)) 64).ret = false ∧
      (sfp_read_block bus_nack 0x50 0x00 (some (List.replicate 64 0)) 64).ops
        = [i2c_op.write_blocking 0x50 [0x00] 1 true]) :=
  ⟨(sfp_read_block_spec bus_ack 0x50 0x00 (some (List.replicate 64 0)) 64).1.mpr
      ⟨List.replicate 64 0, rfl, by decide, rfl, rfl⟩,
   (sfp_read_block_spec bus_ack 0x50 0x00 (some (List.replicate 64 0)) 64).2.1 rfl,
   (sfp_read_block_spec bus_ack 0x50 0x00 none 64).2.2.1 (Or.inl rfl),
   (sfp_read_block_spec bus_ack 0x50 0x00 (some (List.replicate 64 0)) 0).2.2.1 (Or.inr rfl),
   (sfp_read_block_spec bus_nack 0x50 0x00 (some (List.replicate 64 0)) 64).2.2.2
      ⟨by simp, by decide, by decide⟩⟩

/-! ## Absent buffer, input dependence, order of the calls -/

/-- C18: with a null raw buffer each of the three parse functions returns and leaves the
record (present or absent) exactly as it was, and so does their sequence; on the
zero-initialised record the getters then report `SFP_ID_UNKNOWN`,
`(0, SFP_OM1_LEN_NOT_SUPPORTED)` and `(0, SFP_OM4_LEN_NOT_SUPPORTED)`. -/
theorem parsers_null_buffer_atomic (a0 : Option sfp_a0h_base_t)
    (s1 : sfp_om1_length_status_t) (s4 : sfp_om4_length_status_t) :
    sfp_parse_a0_base_identifier none a0 = .ok a0 ∧
    sfp_parse_a0_base_om1 none a0 = .ok a0 ∧
    sfp_parse_a0_base_om4_or_copper none a0 = .ok a0 ∧
    decode_sequence none a0 = .ok a0 ∧
    (decode_sequence none (some a0_zero)).map sfp_a0_get_identifier = .ok SFP_ID_UNKNOWN ∧
    (decode_sequence none (some a0_zero) >>= fun a => sfp_a0_get_om1_length_m a (some s1))
      = .ok (0, some SFP_OM1_LEN_NOT_SUPPORTED) ∧
    (decode_sequence none (some a0_zero) >>= fun a =>
        sfp_a0_get_om4_copper_or_length_m a (some s4))
      = .ok (0, some SFP_OM4_LEN_NOT_SUPPORTED) := by
  refine ⟨?_, ?_, ?_, ?_, rfl, rfl, rfl⟩ <;> cases a0 <;> rfl

/-- C19: for two buffers of at least 64 octets and the same record, the OM4 or copper
parser gives the same result when the buffers agree on byte 18 and on bits 2 and 3 of
byte 8, the OM1 parser when they agree on byte 17, and the identifier parser when they
agree on byte 0. -/
theorem parsers_input_dependence (d1 d2 : List uint8_t) (a0 : Option sfp_a0h_base_t)
    (hlen1 : SFP_A0_BASE_SIZE ≤ d1.length) (hlen2 : SFP_A0_BASE_SIZE ≤ d2.length) :
    (d1[18]? = d2[18]? →
      d1[8]?.map (fun m => (m.val.testBit 2, m.val.testBit 3))
        = d2[8]?.map (fun m => (m.val.testBit 2, m.val.testBit 3)) →
      ∃ a, sfp_parse_a0_base_om4_or_copper (some d1) a0 = .ok a ∧
        sfp_parse_a0_base_om4_or_copper (some d2) a0 = .ok a) ∧
    (d1[17]? = d2[17]? →
      ∃ a, sfp_parse_a0_base_om1 (some d1) a0 = .ok a ∧
        sfp_parse_a0_base_om1 (some d2) a0 = .ok a) ∧
    (d1[0]? = d2[0]? →
      ∃ a, sfp_parse_a0_base_identifier (some d1) a0 = .ok a ∧
        sfp_parse_a0_base_identifier (some d2) a0 = .ok a) := by
  have hlen1a : 64 ≤ d1.length := hlen1
  have hlen2a : 64 ≤ d2.length := hlen2
  cases a0 with
  | none => exact ⟨fun _ _ => ⟨none, rfl, rfl⟩, fun _ => ⟨none, rfl, rfl⟩,
      fun _ => ⟨none, rfl, rfl⟩⟩
  | some r =>
    obtain ⟨x0, hx0⟩ := getElem?_of_lt d1 0 (by omega)
    obtain ⟨x17, hx17⟩ := getElem?_of_lt d1 17 (by omega)
    obtain ⟨x18, hx18⟩ := getElem?_of_lt d1 18 (by omega)
    obtain ⟨x8, hx8⟩ := getElem?_of_lt d1 8 (by omega)
    obtain ⟨y8, hy8⟩ := getElem?_of_lt d2 8 (by omega)
    refine ⟨fun h18 h8 => ?_, fun h17 => ?_, fun h0 => ?_⟩
    · have hy18 : d2[18]? = some x18 := by rw [← h18]; exact hx18
      have hbits : (x8.val.testBit 2, x8.val.testBit 3)
          = (y8.val.testBit 2, y8.val.testBit 3) := by
        rw [hx8, hy8] at h8
        simpa using h8
      have hb2 : x8.val.testBit 2 = y8.val.testBit 2 := congrArg Prod.fst hbits
      have hb3 : x8.val.testBit 3 = y8.val.testBit 3 := congrArg Prod.snd hbits
      have hcop : sfp_is_copper x8 = sfp_is_copper y8 := by
        rw [sfp_is_copper_eq_testBit, sfp_is_copper_eq_testBit, hb2, hb3]
      simp only [sfp_parse_a0_base_om4_or_copper, read_u8_of_getElem? hx18,
        read_u8_of_getElem? hx8, read_u8_of_getElem? hy18, read_u8_of_getElem? hy8, hcop]
      split_ifs <;> exact ⟨_, rfl, rfl⟩
    · have hy17 : d2[17]? = some x17 := by rw [← h17]; exact hx17
      simp only [sfp_parse_a0_base_om1, read_u8_of_getElem? hx17, read_u8_of_getElem? hy17]
      split_ifs <;> exact ⟨_, rfl, rfl⟩
    · have hy0 : d2[0]? = some x0 := by rw [← h0]; exact hx0
      exact ⟨_, parse_identifier_closed d1 x0 r hx0, parse_identifier_closed d2 x0 r hy0⟩

/-- Witness for C19: the example buffer and a buffer that differs from it in every octet
the parsers do not read, and in the bits of byte 8 other than 2 and 3. -/
theorem parsers_input_dependence_witness :
    (∃ a, sfp_parse_a0_base_om4_or_copper (some example_buffer) (some a0_zero) = .ok a ∧
      sfp_parse_a0_base_om4_or_copper
        (some ((((List.replicate 64 0x55).set 0 0x03).set 8 0xF3).set 17 0x19 |>.set 18 0x0A))
        (some a0_zero) = .ok a) ∧
    (∃ a, sfp_parse_a0_base_om1 (some example_buffer) (some a0_zero) = .ok a ∧
      sfp_parse_a0_base_om1
        (some ((((List.replicate 64 0x55).set 0 0x03).set 8 0xF3).set 17 0x19 |>.set 18 0x0A))
        (some a0_zero) = .ok a) ∧
    (∃ a, sfp_parse_a0_base_identifier (some example_buffer) (some a0_zero) = .ok a ∧
      sfp_parse_a0_base_identifier
        (some ((((List.replicate 64 0x55).set 0 0x03).set 8 0xF3).set 17 0x19 |>.set 18 0x0A))
        (some a0_zero) = .ok a) :=
  ⟨(parsers_input_dependence example_buffer
      ((((List.replicate 64 0x55).set 0 0x03).set 8 0xF3).set 17 0x19 |>.set 18 0x0A)
      (some a0_zero) (by decide) (by decide)).1 (by decide) (by decide),
   (parsers_input_dependence example_buffer
      ((((List.replicate 64 0x55).set 0 0x03).set 8 0xF3).set 17 0x19 |>.set 18 0x0A)
      (some a0_zero) (by decide) (by decide)).2.1 (by decide),
   (parsers_input_dependence example_buffer
      ((((List.replicate 64 0x55).set 0 0x03).set 8 0xF3).set 17 0x19 |>.set 18 0x0A)
      (some a0_zero) (by decide) (by decide)).2.2 (by decide)⟩

/-- C20: for a buffer of at least 64 octets and any record, the three parse functions
commute pairwise, and the six orders of calling them all end in one and the same
record. -/
theorem parsers_commute (data : List uint8_t) (r : sfp_a0h_base_t)
    (hlen : SFP_A0_BASE_SIZE ≤ data.length) :
    ((sfp_parse_a0_base_identifier (some data) (some r) >>= sfp_parse_a0_base_om1 (some data))
      = (sfp_parse_a0_base_om1 (some data) (some r)
          >>= sfp_parse_a0_base_identifier (some data))) ∧
    ((sfp_parse_a0_base_identifier (some data) (some r)
          >>= sfp_parse_a0_base_om4_or_copper (some data))
      = (sfp_parse_a0_base_om4_or_copper (some data) (some r)
          >>= sfp_parse_a0_base_identifier (some data))) ∧
    ((sfp_parse_a0_base_om1 (some data) (some r)
          >>= sfp_parse_a0_base_om4_or_copper (some data))
      = (sfp_parse_a0_base_om4_or_copper (some data) (some r)
          >>= sfp_parse_a0_base_om1 (some data))) ∧
    ∃ rf,
      (sfp_parse_a0_base_identifier (some data) (some r)
          >>= sfp_parse_a0_base_om1 (some data)
          >>= sfp_parse_a0_base_om4_or_copper (some data)) = .ok (some rf) ∧
      (sfp_parse_a0_base_identifier (some data) (some r)
          >>= sfp_parse_a0_base_om4_or_copper (some data)
          >>= sfp_parse_a0_base_om1 (some data)) = .ok (some rf) ∧
      (sfp_parse_a0_base_om1 (some data) (some r)
          >>= sfp_parse_a0_base_identifier (some data)
          >>= sfp_parse_a0_base_om4_or_copper (some data)) = .ok (some rf) ∧
      (sfp_parse_a0_base_om1 (some data) (some r)
          >>= sfp_parse_a0_base_om4_or_copper (some data)
          >>= sfp_parse_a0_base_identifier (some data)) = .ok (some rf) ∧
      (sfp_parse_a0_base_om4_or_copper (some data) (some r)
          >>= sfp_parse_a0_base_identifier (some data)
          >>= sfp_parse_a0_base_om1 (some data)) = .ok (some rf) ∧
      (sfp_parse_a0_base_om4_or_copper (some data) (some r)
          >>= sfp_parse_a0_base_om1 (some data)
          >>= sfp_parse_a0_base_identifier (some data)) = .ok (some rf) ∧
      decode_sequence (some data) (some r) = .ok (some rf) := by
  have hlen64 : 64 ≤ data.length := hlen
  obtain ⟨b0, h0⟩ := getElem?_of_lt data 0 (by omega)
  obtain ⟨b17, h17⟩ := getElem?_of_lt data 17 (by omega)
  obtain ⟨b18, h18⟩ := getElem?_of_lt data 18 (by omega)
  obtain ⟨b8, h8⟩ := getElem?_of_lt data 8 (by omega)
  obtain ⟨l1, s1, hp1, _⟩ := parse_om1_closed data b17 h17
  obtain ⟨l4, s4, hp4, _⟩ := parse_om4_closed data b18 b8 h18 h8
  have hp0 := fun q => parse_identifier_closed data b0 q h0
  refine ⟨?_, ?_, ?_,
    { r with identifier := b0.val, om1_length_m := l1, om1_status := s1
             om4_or_cooper_length_m := l4, om4_or_cooper_status := s4 },
    ?_, ?_, ?_, ?_, ?_, ?_, ?_⟩ <;>
    simp only [decode_sequence, hp0, hp1, hp4, bind, Except.bind]

/-- Witness for C20 on the example buffer and the zero record. -/
theorem parsers_commute_witness :
    ∃ rf,
      (sfp_parse_a0_base_om4_or_copper (some example_buffer) (some a0_zero)
          >>= sfp_parse_a0_base_om1 (some example_buffer)
          >>= sfp_parse_a0_base_identifier (some example_buffer)) = .ok (some rf) ∧
      decode_sequence (some example_buffer) (some a0_zero) = .ok (some rf) :=
  let ⟨rf, h⟩ := (parsers_commute example_buffer a0_zero (by decide)).2.2.2
  ⟨rf, h.2.2.2.2.2.1, h.2.2.2.2.2.2⟩

end SFP
